import Mathlib

/-!
Shallow embedding of the two PuLP model-building scripts of this repository:

* `src/base.py` — the fixed-maintenance variant (horizon `len(maintenance_schedules[0])`,
  maintenance indicators pinned by equality to an external schedule, a per-slot
  simultaneous-maintenance cap, and a pre-solve warning loop);
* `src/flights_and_maintenance_sched.py` — the solver-chosen-maintenance variant
  (horizon `schedule_length`, maintenance indicators free boolean variables subject
  to a per-aircraft total-maintenance equality).

All decision variables are `LpBinary`, so a model valuation is a pair of boolean
functions (`v` for the flight assignment variables `F_A_T`, `m` for the maintenance
variables `M_A_T`); satisfaction of each constraint family is translated literally
from the Python loops that emit the constraints.
-/

set_option linter.unusedVariables false
set_option linter.unnecessarySeqFocus false

/-- Value of a boolean `LpBinary` decision variable as a natural number (0 or 1). -/
def b2n (b : Bool) : Nat := cond b 1 0

/-- Python `range(a, b)` as a list of naturals: `[a, a+1, ..., b-1]`, empty when `b ≤ a`. -/
def pyRange (a b : Nat) : List Nat := List.range' a (b - a)

/-- Flight ids of `src/base.py`: `flight_ids = [1, 2, 3]`. -/
def baseFlightIds : List Nat := [1, 2, 3]

/-- Flight durations of `src/base.py`: `[2, 1, 3]` (already integral, so the
`math.ceil` pass leaves them unchanged). -/
def baseFlightDurations : List Nat := [2, 1, 3]

/-- Flight cost matrix of `src/base.py`, accessed as `flight_costs[f - 1][a - 1]`. -/
def baseFlightCosts : List (List Nat) := [[10, 15, 20], [12, 18, 22], [11, 14, 17]]

/-- Aircraft ids, identical in both scripts: `aircraft_ids = [1, 2, 3]`. -/
def aircraft_ids : List Nat := [1, 2, 3]

/-- Fixed external maintenance schedule matrix of `src/base.py`,
accessed as `maintenance_schedules[a - 1][t]`. -/
def maintenance_schedules : List (List Nat) :=
  [[0, 0, 1, 1, 1, 0, 0], [1, 0, 1, 0, 1, 1, 0], [0, 1, 1, 0, 0, 0, 1]]

/-- Simultaneous-maintenance cap of `src/base.py`: `max_maintenance = 3`
(the script comments it as a configurable value). -/
def max_maintenance : Nat := 3

/-- Horizon of the fixed-maintenance script: `len(maintenance_schedules[0])`,
as a function of the (configurable) schedule matrix. -/
def baseH (sched : List (List Nat)) : Nat := (sched.getD 0 []).length

/-- Flight ids of `src/flights_and_maintenance_sched.py`: `[1, 2, 3, 4, 5]`. -/
def chosenFlightIds : List Nat := [1, 2, 3, 4, 5]

/-- Raw (real-valued) flight durations of `src/flights_and_maintenance_sched.py`:
`flight_durations = [2, 3, 2.5, 2, 1.5]`, before the `math.ceil` rounding pass. -/
def chosenDurationsRaw : List ℚ := [2, 3, 2.5, 2, 1.5]

/-- Integer flight durations of `src/flights_and_maintenance_sched.py` after
`flight_durations = [math.ceil(i) for i in flight_durations]`. -/
def chosenDurations : List Nat := chosenDurationsRaw.map (fun q => (⌈q⌉).toNat)

/-- Flight cost matrix of `src/flights_and_maintenance_sched.py`. -/
def chosenFlightCosts : List (List Nat) :=
  [[10, 15, 20], [12, 18, 22], [11, 14, 17], [9, 13, 19], [8, 16, 21]]

/-- Horizon of the solver-chosen-maintenance script: `schedule_length = 12`. -/
def schedule_length : Nat := 12

/-- Duration lookup `flight_durations[f - 1]` (flight ids are 1-based). -/
def durOf (durs : List Nat) (f : Nat) : Nat := durs.getD (f - 1) 0

/-- Cost lookup `flight_costs[f - 1][a - 1]` (flight and aircraft ids are 1-based). -/
def costOf (costs : List (List Nat)) (f a : Nat) : Nat :=
  (costs.getD (f - 1) []).getD (a - 1) 0

/-- Start-slot window generated by both scripts for a flight `f` and a target slot `t`:
`range(max(0, t - flight_durations[f - 1] + 1), min(t + 1, H))`.  The Python
`max(0, ·)` clamp of a possibly negative integer is `Int.toNat`. -/
def winRange (durs : List Nat) (H f t : Nat) : List Nat :=
  pyRange (((t : Int) - durOf durs f + 1).toNat) (min (t + 1) H)

/-- Occupancy-window sum emitted by both scripts for a fixed `(a, t)`:
`lpSum([var_dict[(f, a, t2)] for f in flight_ids for t2 in range(max(0, t - d + 1), min(t + 1, H))])`. -/
def occSum (fIds durs : List Nat) (H : Nat) (v : Nat → Nat → Nat → Bool) (a t : Nat) : Nat :=
  (fIds.map (fun f => ((winRange durs H f t).map (fun t2 => b2n (v f a t2))).sum)).sum

/-- Per-slot constraint pair of `src/base.py` (lines 39 and 41): the occupancy-window
sum is `≤ 1` and also `≤ 1 - maintenance_var_dict[(a, t)]`. -/
def basePairConstraint (fIds durs : List Nat) (H : Nat)
    (v : Nat → Nat → Nat → Bool) (m : Nat → Nat → Bool) (a t : Nat) : Prop :=
  occSum fIds durs H v a t ≤ 1 ∧ occSum fIds durs H v a t ≤ 1 - b2n (m a t)

/-- Unified per-slot constraint of `src/flights_and_maintenance_sched.py` (line 47):
the occupancy-window sum plus the maintenance indicator is `≤ 1`. -/
def chosenUnifiedConstraint (fIds durs : List Nat) (H : Nat)
    (v : Nat → Nat → Nat → Bool) (m : Nat → Nat → Bool) (a t : Nat) : Prop :=
  occSum fIds durs H v a t + b2n (m a t) ≤ 1

/-- Total-assignment sum for one flight, as emitted by both scripts:
`lpSum([var_dict[(f, a, t)] for a in aircraft_ids for t in range(H)])`. -/
def totalSum (aIds : List Nat) (H : Nat) (v : Nat → Nat → Nat → Bool) (f : Nat) : Nat :=
  (aIds.map (fun a => ((List.range H).map (fun t => b2n (v f a t))).sum)).sum

/-- Total maintenance received by aircraft `a`:
`lpSum([maintenance_dict[a, t] for t in range(L)])`. -/
def maintTotal (L : Nat) (m : Nat → Nat → Bool) (a : Nat) : Nat :=
  ((List.range L).map (fun t => b2n (m a t))).sum

/-- Start slots excluded by the feasibility loop of `src/base.py` (line 46):
`range(len(maintenance_schedules[0]) - flight_durations[f - 1], len(maintenance_schedules[0]))`. -/
def baseExclRange (H d : Nat) : List Nat := pyRange (H - d) H

/-- Start slots excluded by the feasibility loop of
`src/flights_and_maintenance_sched.py` (line 52):
`range(schedule_length - flight_durations[f - 1] + 1, schedule_length)`. -/
def chosenExclRange (H d : Nat) : List Nat := pyRange (H - d + 1) H

/-- Slot-wise column sum of a fixed maintenance schedule matrix:
`sum([maintenance_schedules[a - 1][t] for a in aircraft_ids])`. -/
def schedSlotSum (sched : List (List Nat)) (t : Nat) : Nat :=
  (aircraft_ids.map (fun a => (sched.getD (a - 1) []).getD t 0)).sum

/-- Slots reported by the pre-solve diagnostic loop of `src/base.py` (lines 62–65):
those `t` whose total fixed maintenance exceeds `max_maintenance` (the loop only
prints a message for each such slot; it adds nothing to the model). -/
def capWarnings (sched : List (List Nat)) (cap : Nat) : List Nat :=
  (List.range (baseH sched)).filter (fun t => decide (cap < schedSlotSum sched t))

/-- Satisfaction of the full constraint set of `src/base.py` (lines 32–59) by a 0/1
valuation `(v, m)`, with the maintenance schedule matrix and the cap kept as
parameters (the script fixes them to `maintenance_schedules` and `max_maintenance = 3`):
total assignment, the per-slot occupancy/maintenance pair, feasibility exclusion,
equality pinning of the maintenance indicators, and the per-slot maintenance cap. -/
def satBase (sched : List (List Nat)) (cap : Nat)
    (v : Nat → Nat → Nat → Bool) (m : Nat → Nat → Bool) : Prop :=
  (∀ f ∈ baseFlightIds, totalSum aircraft_ids (baseH sched) v f = 1) ∧
  (∀ a ∈ aircraft_ids, ∀ t < baseH sched,
      basePairConstraint baseFlightIds baseFlightDurations (baseH sched) v m a t) ∧
  (∀ f ∈ baseFlightIds, ∀ a ∈ aircraft_ids,
      ∀ t ∈ baseExclRange (baseH sched) (durOf baseFlightDurations f), b2n (v f a t) = 0) ∧
  (∀ a ∈ aircraft_ids, ∀ t < baseH sched,
      b2n (m a t) = (sched.getD (a - 1) []).getD t 0) ∧
  (∀ t < baseH sched, (aircraft_ids.map (fun a => b2n (m a t))).sum ≤ cap)

/-- Satisfaction of the constraints of `src/base.py` other than the per-slot
simultaneous-maintenance cap of lines 58–59 (that is, lines 32–52 only).  This is the
set of "otherwise-feasible" solutions against which the cap family is compared. -/
def satBaseNoCap (sched : List (List Nat))
    (v : Nat → Nat → Nat → Bool) (m : Nat → Nat → Bool) : Prop :=
  (∀ f ∈ baseFlightIds, totalSum aircraft_ids (baseH sched) v f = 1) ∧
  (∀ a ∈ aircraft_ids, ∀ t < baseH sched,
      basePairConstraint baseFlightIds baseFlightDurations (baseH sched) v m a t) ∧
  (∀ f ∈ baseFlightIds, ∀ a ∈ aircraft_ids,
      ∀ t ∈ baseExclRange (baseH sched) (durOf baseFlightDurations f), b2n (v f a t) = 0) ∧
  (∀ a ∈ aircraft_ids, ∀ t < baseH sched,
      b2n (m a t) = (sched.getD (a - 1) []).getD t 0)

/-- Satisfaction of the full constraint set of `src/flights_and_maintenance_sched.py`
(lines 40–57) by a 0/1 valuation `(v, m)`, with the horizon `schedule_length` kept as
a parameter `L` (the script fixes it to 12): total assignment, the unified per-slot
occupancy-plus-maintenance constraint, feasibility exclusion, and the per-aircraft
total-maintenance equality `lpSum([maintenance_dict[a, t] for t in range(L)]) == 4`. -/
def satChosen (L : Nat) (v : Nat → Nat → Nat → Bool) (m : Nat → Nat → Bool) : Prop :=
  (∀ f ∈ chosenFlightIds, totalSum aircraft_ids L v f = 1) ∧
  (∀ a ∈ aircraft_ids, ∀ t < L,
      chosenUnifiedConstraint chosenFlightIds chosenDurations L v m a t) ∧
  (∀ f ∈ chosenFlightIds, ∀ a ∈ aircraft_ids,
      ∀ t ∈ chosenExclRange L (durOf chosenDurations f), b2n (v f a t) = 0) ∧
  (∀ a ∈ aircraft_ids, maintTotal L m a = 4)

/-- Objective function emitted by both scripts:
`lpSum([var_dict[(f, a, t)] * flight_costs[f - 1][a - 1] for f, a, t in var_dict])`,
where `var_dict` ranges over `itertools.product(flight_ids, aircraft_ids, range(H))`. -/
def objective (fIds aIds : List Nat) (H : Nat) (costs : List (List Nat))
    (v : Nat → Nat → Nat → Bool) : Nat :=
  (fIds.map (fun f =>
    (aIds.map (fun a =>
      ((List.range H).map (fun t => b2n (v f a t) * costOf costs f a)).sum)).sum)).sum

/-- The 0/1 valuation induced by a complete assignment `g` mapping each flight id to
an (aircraft, start-slot) pair: exactly the variables `(f, (g f).1, (g f).2)` are set. -/
def asgnVal (g : Nat → Nat × Nat) : Nat → Nat → Nat → Bool :=
  fun f a t => decide ((g f).1 = a) && decide ((g f).2 = t)

/-- Configuration errors raised by the scripts before the `problem.solve()` call.
Neither script contains any validation, exception or early exit between model
construction and solver submission (there is no `ConfigurationError` — or any other
error path — anywhere in `src/`), so the list of pre-solve configuration errors is
empty for every horizon. -/
def chosenConfigErrors (L : Nat) : List String := []

/-- Evaluation of the rounded durations of `src/flights_and_maintenance_sched.py`:
`math.ceil` applied to `[2, 3, 2.5, 2, 1.5]` yields `[2, 3, 3, 2, 2]`. -/
lemma chosenDurations_eval : chosenDurations = [2, 3, 3, 2, 2] := by
  have h1 : ⌈(5 / 2 : ℚ)⌉ = 3 := by rw [Int.ceil_eq_iff]; norm_num
  have h2 : ⌈(3 / 2 : ℚ)⌉ = 2 := by rw [Int.ceil_eq_iff]; norm_num
  unfold chosenDurations chosenDurationsRaw
  norm_num
  exact ⟨rfl, rfl, by rw [h1]; rfl, rfl, by rw [h2]; rfl⟩

/-- Witness valuation for `src/base.py`: flight 1 on aircraft 1 at slot 0, flight 2 on
aircraft 2 at slot 1, flight 3 on aircraft 3 at slot 3. -/
def vBase : Nat → Nat → Nat → Bool :=
  fun f a t => (f == 1 && a == 1 && t == 0) || (f == 2 && a == 2 && t == 1) ||
    (f == 3 && a == 3 && t == 3)

/-- Second witness valuation for `src/base.py`: as `vBase` but flight 2 starts at slot 3. -/
def vBase2 : Nat → Nat → Nat → Bool :=
  fun f a t => (f == 1 && a == 1 && t == 0) || (f == 2 && a == 2 && t == 3) ||
    (f == 3 && a == 3 && t == 3)

/-- Maintenance valuation matching the fixed schedule matrix of `src/base.py`. -/
def mBase : Nat → Nat → Bool :=
  fun a t => ((maintenance_schedules.getD (a - 1) []).getD t 0) == 1

/-- The witness valuation `(vBase, mBase)` satisfies every constraint of `src/base.py`. -/
lemma satBase_concrete : satBase maintenance_schedules max_maintenance vBase mBase := by
  unfold satBase basePairConstraint
  decide

/-- The witness valuation `(vBase2, mBase)` also satisfies every constraint of `src/base.py`. -/
lemma satBase_concrete2 : satBase maintenance_schedules max_maintenance vBase2 mBase := by
  unfold satBase basePairConstraint
  decide

/-- Witness valuation for `src/flights_and_maintenance_sched.py`: flight 1 on
aircraft 1 at slot 0, flight 4 on aircraft 1 at slot 2, flight 2 on aircraft 2 at
slot 0, flight 3 on aircraft 3 at slot 0, flight 5 on aircraft 3 at slot 3. -/
def vChosen : Nat → Nat → Nat → Bool :=
  fun f a t => (f == 1 && a == 1 && t == 0) || (f == 4 && a == 1 && t == 2) ||
    (f == 2 && a == 2 && t == 0) || (f == 3 && a == 3 && t == 0) ||
    (f == 5 && a == 3 && t == 3)

/-- Witness maintenance valuation for the chosen-maintenance variant: every aircraft
is under maintenance exactly at slots 8–11 (four slots within the horizon 12). -/
def mChosen : Nat → Nat → Bool := fun _ t => decide (8 ≤ t) && decide (t < 12)

/-- Maintenance valuation giving aircraft 1 five maintenance slots (7–11): it meets
the at-least-four reading of the maintenance requirement but not the equality the
script actually emits. -/
def mFive : Nat → Nat → Bool := fun _ t => decide (7 ≤ t) && decide (t < 12)

/-- Fixed maintenance schedule used as a counterexample configuration: all three
aircraft are under maintenance at slot 6 and free elsewhere (horizon 7). -/
def schedAll6 : List (List Nat) :=
  [[0, 0, 0, 0, 0, 0, 1], [0, 0, 0, 0, 0, 0, 1], [0, 0, 0, 0, 0, 0, 1]]

/-- Counterexample flight valuation: each flight starts at slot 0 on its own aircraft. -/
def vStar : Nat → Nat → Nat → Bool :=
  fun f a t => (f == 1 && a == 1 && t == 0) || (f == 2 && a == 2 && t == 0) ||
    (f == 3 && a == 3 && t == 0)

/-- Maintenance valuation matching `schedAll6`. -/
def mStar : Nat → Nat → Bool := fun _ t => t == 6

/-- The witness valuation `(vChosen, mChosen)` satisfies every constraint of
`src/flights_and_maintenance_sched.py` at the horizon 12 of the script. -/
lemma satChosen_concrete : satChosen schedule_length vChosen mChosen := by
  unfold satChosen chosenUnifiedConstraint
  rw [chosenDurations_eval]
  decide

/-- A 0/1 variable value is at most 1. -/
lemma b2n_le_one (b : Bool) : b2n b ≤ 1 := by cases b <;> simp [b2n]

/-- A 0/1 variable value determines the boolean. -/
lemma b2n_inj {x y : Bool} (h : b2n x = b2n y) : x = y := by
  cases x <;> cases y <;> simp [b2n] at h ⊢

/-- A 0/1 variable value is 1 exactly when the boolean is true. -/
lemma b2n_eq_one {b : Bool} : b2n b = 1 ↔ b = true := by cases b <;> simp [b2n]

/-- A 0/1 variable value is 0 exactly when the boolean is false. -/
lemma b2n_eq_zero {b : Bool} : b2n b = 0 ↔ b = false := by cases b <;> simp [b2n]

/-- The value of a conjunction of booleans is the product of the values. -/
lemma b2n_and (x y : Bool) : b2n (x && y) = b2n x * b2n y := by
  cases x <;> cases y <;> simp [b2n]

/-- A sum of 0/1 variable values is bounded by the number of summands. -/
lemma sum_b2n_le_length {α : Type} (l : List α) (p : α → Bool) :
    (l.map (fun x => b2n (p x))).sum ≤ l.length := by
  induction l with
  | nil => simp
  | cons a l ih =>
    simp only [List.map_cons, List.sum_cons, List.length_cons]
    have := b2n_le_one (p a)
    omega

/-- A sum of naturals over a list vanishes exactly when every summand vanishes. -/
lemma map_sum_eq_zero_iff {α : Type} (l : List α) (g : α → Nat) :
    (l.map g).sum = 0 ↔ ∀ x ∈ l, g x = 0 := by
  induction l with
  | nil => simp
  | cons a l ih =>
    simp only [List.map_cons, List.sum_cons, List.mem_cons]
    constructor
    · intro h
      have ha : g a = 0 := by omega
      have hl : (l.map g).sum = 0 := by omega
      intro x hx
      rcases hx with rfl | hx
      · exact ha
      · exact ih.mp hl x hx
    · intro h
      have ha : g a = 0 := h a (Or.inl rfl)
      have hl : (l.map g).sum = 0 := ih.mpr (fun x hx => h x (Or.inr hx))
      omega

/-- If a sum of naturals over a list equals 1, some summand equals 1 and every
summand at a different value vanishes. -/
lemma sum_eq_one_unique {α : Type} [DecidableEq α] (l : List α) (g : α → Nat)
    (h : (l.map g).sum = 1) :
    ∃ x, x ∈ l ∧ g x = 1 ∧ ∀ y ∈ l, y ≠ x → g y = 0 := by
  induction l with
  | nil => simp at h
  | cons a l ih =>
    simp only [List.map_cons, List.sum_cons] at h
    by_cases ha : g a = 0
    · have hl : (l.map g).sum = 1 := by omega
      obtain ⟨x, hx, hx1, hz⟩ := ih hl
      refine ⟨x, List.mem_cons_of_mem _ hx, hx1, ?_⟩
      intro y hy hne
      rcases List.mem_cons.mp hy with rfl | hy
      · exact ha
      · exact hz y hy hne
    · have ha1 : g a = 1 := by
        have := h
        omega
      have hl : (l.map g).sum = 0 := by omega
      refine ⟨a, List.mem_cons_self a l, ha1, ?_⟩
      intro y hy hne
      rcases List.mem_cons.mp hy with rfl | hy
      · exact absurd rfl hne
      · exact (map_sum_eq_zero_iff l g).mp hl y hy

/-- If the nested total-assignment sum of a flight equals 1, the flight has exactly
one true assignment variable over the (aircraft, slot) grid. -/
lemma unique_of_totalSum_one {aIds : List Nat} {H : Nat} {v : Nat → Nat → Nat → Bool}
    {f : Nat} (h : totalSum aIds H v f = 1) :
    ∃ a t, a ∈ aIds ∧ t < H ∧ v f a t = true ∧
      ∀ a' t', a' ∈ aIds → t' < H → v f a' t' = true → a' = a ∧ t' = t := by
  unfold totalSum at h
  obtain ⟨a0, ha0mem, ha0, hza⟩ := sum_eq_one_unique aIds _ h
  obtain ⟨t0, ht0mem, ht0, hzt⟩ := sum_eq_one_unique (List.range H) _ ha0
  refine ⟨a0, t0, ha0mem, List.mem_range.mp ht0mem, b2n_eq_one.mp ht0, ?_⟩
  intro a' t' ha' ht' htrue
  by_cases hae : a' = a0
  · subst hae
    by_cases hte : t' = t0
    · exact ⟨rfl, hte⟩
    · have := hzt t' (List.mem_range.mpr ht') hte
      rw [b2n_eq_zero.mp this] at htrue
      cases htrue
  · have hz := hza a' ha' hae
    have := (map_sum_eq_zero_iff (List.range H) _).mp hz t' (List.mem_range.mpr ht')
    rw [b2n_eq_zero.mp this] at htrue
    cases htrue

/-- Indicator sum over a duplicate-free list: summing `b2n (y == a) * k a` picks out
`k y` when `y` occurs in the list and 0 otherwise. -/
lemma sum_indicator {l : List Nat} (hl : l.Nodup) (y : Nat) (k : Nat → Nat) :
    (l.map (fun a => b2n (decide (y = a)) * k a)).sum = if y ∈ l then k y else 0 := by
  induction l with
  | nil => simp
  | cons a l ih =>
    rcases List.nodup_cons.mp hl with ⟨hnotmem, hnd⟩
    simp only [List.map_cons, List.sum_cons]
    by_cases hy : y = a
    · subst hy
      have hrest : (l.map (fun a => b2n (decide (y = a)) * k a)).sum = 0 := by
        rw [ih hnd, if_neg hnotmem]
      rw [hrest, if_pos (List.mem_cons_self y l)]
      simp [b2n]
    · have hhead : b2n (decide (y = a)) = 0 := by simp [b2n, hy]
      rw [hhead, Nat.zero_mul, Nat.zero_add, ih hnd]
      by_cases hyl : y ∈ l
      · rw [if_pos hyl, if_pos (List.mem_cons_of_mem _ hyl)]
      · rw [if_neg hyl, if_neg (by simp [List.mem_cons, hy, hyl])]

/-- Multiplying every summand by a constant factors out of a list sum. -/
lemma sum_mul_left {α : Type} (l : List α) (c : Nat) (g : α → Nat) :
    (l.map (fun x => c * g x)).sum = c * (l.map g).sum := by
  induction l with
  | nil => simp
  | cons a l ih => simp [List.map_cons, List.sum_cons, ih, Nat.mul_add]

/-- At any horizon shorter than 4 slots, the per-aircraft maintenance equality of
`src/flights_and_maintenance_sched.py` is unsatisfiable, hence so is the whole model. -/
lemma satChosen_unsat_of_short (L : Nat) (hL : L < 4)
    (v : Nat → Nat → Nat → Bool) (m : Nat → Nat → Bool) : ¬ satChosen L v m := by
  intro h
  have h4 := h.2.2.2 1 (by decide)
  have hle : maintTotal L m 1 ≤ L := by
    have := sum_b2n_le_length (List.range L) (fun t => m 1 t)
    simpa [maintTotal] using this
  omega

/-- Claim C1: for every aircraft and slot, the model bounds, together with the
maintenance indicator, by 1 the sum of the assignment variables whose start slot lies
in the duration-dependent occupancy window; and the generated window
`range(max(0, s - d + 1), min(s + 1, H))` contains exactly the start slots `t` with
`max(0, s - d + 1) ≤ t ≤ s`, i.e. those whose interval `[t, t + d)` covers `s`. -/
theorem c1_occupancy_window :
    (∀ (durs : List Nat) (H f s t2 : Nat), s < H →
      ((t2 ∈ winRange durs H f s ↔
          max 0 ((s : Int) - durOf durs f + 1) ≤ (t2 : Int) ∧ t2 ≤ s) ∧
        ((max 0 ((s : Int) - durOf durs f + 1) ≤ (t2 : Int) ∧ t2 ≤ s) ↔
          (t2 ≤ s ∧ s < t2 + durOf durs f)))) ∧
    (∀ sched cap v m, satBase sched cap v m → ∀ a ∈ aircraft_ids, ∀ s < baseH sched,
      occSum baseFlightIds baseFlightDurations (baseH sched) v a s + b2n (m a s) ≤ 1) ∧
    (∀ L v m, satChosen L v m → ∀ a ∈ aircraft_ids, ∀ s < L,
      occSum chosenFlightIds chosenDurations L v a s + b2n (m a s) ≤ 1) := by
  refine ⟨?_, ?_, ?_⟩
  · intro durs H f s t2 hs
    constructor
    · simp only [winRange, pyRange, List.mem_range'_1]
      omega
    · omega
  · intro sched cap v m h a ha s hs
    obtain ⟨h1, h2⟩ := h.2.1 a ha s hs
    have hm := b2n_le_one (m a s)
    omega
  · intro L v m h a ha s hs
    exact h.2.1 a ha s hs

/-- Witness for C1: the window of flight 1 (duration 2) around slot 4 of the base
script, and the per-slot bound at (aircraft 1, slot 4) in both concrete models. -/
theorem c1_occupancy_window_witness :
    ((3 ∈ winRange baseFlightDurations 7 1 4 ↔
        max 0 ((4 : Int) - durOf baseFlightDurations 1 + 1) ≤ (3 : Int) ∧ 3 ≤ 4) ∧
      ((max 0 ((4 : Int) - durOf baseFlightDurations 1 + 1) ≤ (3 : Int) ∧ 3 ≤ 4) ↔
        (3 ≤ 4 ∧ 4 < 3 + durOf baseFlightDurations 1))) ∧
    occSum baseFlightIds baseFlightDurations (baseH maintenance_schedules) vBase 1 4 +
        b2n (mBase 1 4) ≤ 1 ∧
    occSum chosenFlightIds chosenDurations schedule_length vChosen 1 4 +
        b2n (mChosen 1 4) ≤ 1 :=
  ⟨c1_occupancy_window.1 baseFlightDurations 7 1 4 3 (by decide),
   c1_occupancy_window.2.1 maintenance_schedules max_maintenance vBase mBase satBase_concrete
     1 (by decide) 4 (by decide),
   c1_occupancy_window.2.2 schedule_length vChosen mChosen satChosen_concrete
     1 (by decide) 4 (by decide)⟩

/-- Claim C2 (evaluation at the failing input): the chosen-maintenance script excludes
exactly the start slots `t` with `t + d > horizon`, but the fixed-maintenance script
(`src/base.py` line 46, `range(H - d, H)`) additionally forces to zero the last slot
`t = horizon - d` at which the flight can still complete: for flight 2 (duration 1,
horizon 7), slot 6 satisfies `6 + 1 ≤ 7` yet receives an equality-to-zero constraint. -/
theorem c2_feasibility_boundary_bug :
    (∀ f ∈ chosenFlightIds, ∀ t < schedule_length,
      (t ∈ chosenExclRange schedule_length (durOf chosenDurations f) ↔
        schedule_length < t + durOf chosenDurations f)) ∧
    6 + durOf baseFlightDurations 2 ≤ 7 ∧
    6 ∈ baseExclRange 7 (durOf baseFlightDurations 2) := by
  refine ⟨?_, by decide, by decide⟩
  rw [chosenDurations_eval]
  decide

/-- Claim C3: in both scripts, every satisfying valuation gives each flight a
total-assignment sum of exactly 1, hence exactly one true (aircraft, start-slot)
variable on the grid. -/
theorem c3_total_assignment :
    (∀ sched cap v m, satBase sched cap v m → ∀ f ∈ baseFlightIds,
      totalSum aircraft_ids (baseH sched) v f = 1 ∧
      ∃ a t, a ∈ aircraft_ids ∧ t < baseH sched ∧ v f a t = true ∧
        ∀ a' t', a' ∈ aircraft_ids → t' < baseH sched → v f a' t' = true →
          a' = a ∧ t' = t) ∧
    (∀ L v m, satChosen L v m → ∀ f ∈ chosenFlightIds,
      totalSum aircraft_ids L v f = 1 ∧
      ∃ a t, a ∈ aircraft_ids ∧ t < L ∧ v f a t = true ∧
        ∀ a' t', a' ∈ aircraft_ids → t' < L → v f a' t' = true → a' = a ∧ t' = t) := by
  constructor
  · intro sched cap v m h f hf
    have h1 := h.1 f hf
    exact ⟨h1, unique_of_totalSum_one h1⟩
  · intro L v m h f hf
    have h1 := h.1 f hf
    exact ⟨h1, unique_of_totalSum_one h1⟩

/-- Witness for C3: flight 2 of the base script under the witness valuation. -/
theorem c3_total_assignment_witness :
    totalSum aircraft_ids (baseH maintenance_schedules) vBase 2 = 1 ∧
    ∃ a t, a ∈ aircraft_ids ∧ t < baseH maintenance_schedules ∧ vBase 2 a t = true ∧
      ∀ a' t', a' ∈ aircraft_ids → t' < baseH maintenance_schedules →
        vBase 2 a' t' = true → a' = a ∧ t' = t :=
  c3_total_assignment.1 maintenance_schedules max_maintenance vBase mBase satBase_concrete
    2 (by decide)

/-- Claim C4 (evaluation at the failing input): the maintenance requirement of
`src/flights_and_maintenance_sched.py` (line 57) is the equality `== 4`, not a lower
bound: a maintenance valuation giving aircraft 1 five slots (7–11) meets the
at-least-4 minimum yet violates the emitted constraint, and no flight valuation can
make the model accept it. -/
theorem c4_min_maintenance_is_equality :
    4 ≤ maintTotal schedule_length mFive 1 ∧
    maintTotal schedule_length mFive 1 = 5 ∧
    ¬ maintTotal schedule_length mFive 1 = 4 ∧
    (∀ v, ¬ satChosen schedule_length v mFive) := by
  refine ⟨by decide, by decide, by decide, ?_⟩
  intro v h
  have h4 := h.2.2.2 1 (by decide)
  exact absurd h4 (by decide)

/-- Claim C5 (evaluation at the failing input): for a flight whose duration equals the
horizon (7), the exclusion range of `src/flights_and_maintenance_sched.py` is exactly
the slots `t ≥ 1` and leaves slot 0 free, but the exclusion range of `src/base.py`
(`range(H - d, H)` with `d = H`) covers every slot including 0, so slot 0 is also
forced to zero there. -/
theorem c5_duration_equals_horizon :
    (0 ∉ chosenExclRange 7 7) ∧
    (∀ t < 7, (t ∈ chosenExclRange 7 7 ↔ 1 ≤ t)) ∧
    0 ∈ baseExclRange 7 7 := by decide

/-- Claim C6: under the fixed maintenance policy, every satisfying valuation pins the
maintenance indicator at (a, t) to the external schedule value, so any two satisfying
valuations agree on every maintenance indicator (the solver has no freedom there). -/
theorem c6_fixed_maintenance_pinned (sched : List (List Nat)) (cap : Nat)
    (v v' : Nat → Nat → Nat → Bool) (m m' : Nat → Nat → Bool)
    (h : satBase sched cap v m) (h' : satBase sched cap v' m') :
    ∀ a ∈ aircraft_ids, ∀ t < baseH sched,
      b2n (m a t) = (sched.getD (a - 1) []).getD t 0 ∧ m a t = m' a t := by
  intro a ha t ht
  have e1 := h.2.2.2.1 a ha t ht
  have e2 := h'.2.2.2.1 a ha t ht
  exact ⟨e1, b2n_inj (e1.trans e2.symm)⟩

/-- Witness for C6: indicator (aircraft 1, slot 2) under two satisfying valuations of
the base script. -/
theorem c6_fixed_maintenance_pinned_witness :
    b2n (mBase 1 2) = (maintenance_schedules.getD (1 - 1) []).getD 2 0 ∧
    mBase 1 2 = mBase 1 2 :=
  c6_fixed_maintenance_pinned maintenance_schedules max_maintenance vBase vBase2 mBase mBase
    satBase_concrete satBase_concrete2 1 (by decide) 2 (by decide)

/-- Counterexample for C7: the cap family of `src/base.py` (lines 58–59) is a hard
model constraint, not only a diagnostic.  With cap 2 and a fixed schedule putting all
three aircraft in maintenance at slot 6, the valuation `(vStar, mStar)` satisfies
every other constraint of the model but the model as a whole rejects it, so the
feasible set is not preserved when the fixed schedule exceeds the cap. -/
theorem c7_cap_not_diagnostic_only :
    satBaseNoCap schedAll6 vStar mStar ∧ ¬ satBase schedAll6 2 vStar mStar := by
  unfold satBase satBaseNoCap basePairConstraint
  decide

/-- Claim C7 as amended: the pre-solve warning loop is a pure diagnostic (it contains
exactly the slots whose fixed maintenance total exceeds the cap and adds nothing to
the model), but the cap is also emitted as a hard constraint, so every satisfying
valuation forces the fixed schedule to respect the cap at every slot — and hence the
warning loop never fires on a configuration whose model is satisfiable. -/
theorem c7_cap_is_hard_constraint (sched : List (List Nat)) (cap : Nat)
    (v : Nat → Nat → Nat → Bool) (m : Nat → Nat → Bool) (h : satBase sched cap v m) :
    (∀ t, t ∈ capWarnings sched cap ↔ (t < baseH sched ∧ cap < schedSlotSum sched t)) ∧
    (∀ t < baseH sched, schedSlotSum sched t ≤ cap) ∧
    capWarnings sched cap = [] := by
  have key : ∀ t < baseH sched, schedSlotSum sched t ≤ cap := by
    intro t ht
    have hcap := h.2.2.2.2 t ht
    have heq : (aircraft_ids.map (fun a => b2n (m a t))).sum
        = (aircraft_ids.map (fun a => (sched.getD (a - 1) []).getD t 0)).sum := by
      apply congrArg List.sum
      apply List.map_congr_left
      intro a ha
      exact h.2.2.2.1 a ha t ht
    unfold schedSlotSum
    rw [← heq]
    exact hcap
  refine ⟨?_, key, ?_⟩
  · intro t
    simp [capWarnings, List.mem_filter, List.mem_range]
  · unfold capWarnings
    rw [List.filter_eq_nil_iff]
    intro t ht
    simp only [decide_eq_true_eq, not_lt]
    exact key t (List.mem_range.mp ht)

/-- Witness for C7: the own configuration of the base script (cap 3) under the witness
valuation. -/
theorem c7_cap_is_hard_constraint_witness :
    (∀ t, t ∈ capWarnings maintenance_schedules max_maintenance ↔
      (t < baseH maintenance_schedules ∧
        max_maintenance < schedSlotSum maintenance_schedules t)) ∧
    (∀ t < baseH maintenance_schedules,
      schedSlotSum maintenance_schedules t ≤ max_maintenance) ∧
    capWarnings maintenance_schedules max_maintenance = [] :=
  c7_cap_is_hard_constraint maintenance_schedules max_maintenance vBase mBase satBase_concrete

/-- Counterexample for C8: with the chosen-maintenance policy at horizon 3 (Scenario D:
minimum 4 maintenance slots required), the scripts raise no configuration error — the
model is built unconditionally — and the built model is unsatisfiable, so the
guaranteed-infeasible model is what reaches the solver. -/
theorem c8_no_configuration_error :
    chosenConfigErrors 3 = [] ∧ ∀ v m, ¬ satChosen 3 v m :=
  ⟨rfl, satChosen_unsat_of_short 3 (by decide)⟩

/-- Claim C8 as amended: the scripts perform no fail-fast validation; for every
horizon shorter than the 4 required maintenance slots, no configuration error is
raised and the constructed model is unsatisfiable (infeasibility surfaces only at the
solver). -/
theorem c8_infeasible_model_submitted (L : Nat) (hL : L < 4) :
    chosenConfigErrors L = [] ∧ ∀ v m, ¬ satChosen L v m :=
  ⟨rfl, satChosen_unsat_of_short L hL⟩

/-- Witness for C8: horizon 3 with the all-false valuation. -/
theorem c8_infeasible_model_submitted_witness :
    chosenConfigErrors 3 = [] ∧ ¬ satChosen 3 vStar mStar :=
  ⟨(c8_infeasible_model_submitted 3 (by decide)).1,
   (c8_infeasible_model_submitted 3 (by decide)).2 vStar mStar⟩

/-- Claim C9: over 0/1 valuations, the per-slot constraint pair of the
fixed-maintenance variant (window sum `≤ 1` and window sum `≤ 1 - m`) is satisfied at
(a, t) exactly when the single unified constraint of the chosen-maintenance variant
(window sum `+ m ≤ 1`) is; the two constraint families carve out the same feasible
set slot by slot, for any flight list, duration list and horizon. -/
theorem c9_pair_iff_unified (fIds durs : List Nat) (H : Nat)
    (v : Nat → Nat → Nat → Bool) (m : Nat → Nat → Bool) (a t : Nat) :
    basePairConstraint fIds durs H v m a t ↔ chosenUnifiedConstraint fIds durs H v m a t := by
  unfold basePairConstraint chosenUnifiedConstraint
  cases hm : m a t <;> simp [b2n] <;> omega


/-- Specialisation of `sum_indicator` to a constant weight. -/
lemma sum_indicator_const {l : List Nat} (hl : l.Nodup) (y c : Nat) :
    (l.map (fun a => b2n (decide (y = a)) * c)).sum = if y ∈ l then c else 0 :=
  sum_indicator hl y (fun _ => c)

/-- The objective value of the valuation induced by a complete assignment `g` is the
sum, over the flight list, of the cost of each flight on its assigned aircraft —
independent of the chosen start slots. -/
lemma objective_asgnVal (fIds aIds : List Nat) (H : Nat) (costs : List (List Nat))
    (g : Nat → Nat × Nat) (hnd : aIds.Nodup)
    (hg : ∀ f ∈ fIds, (g f).1 ∈ aIds ∧ (g f).2 < H) :
    objective fIds aIds H costs (asgnVal g)
      = (fIds.map (fun f => costOf costs f (g f).1)).sum := by
  unfold objective
  apply congrArg List.sum
  apply List.map_congr_left
  intro f hf
  obtain ⟨hga, hgt⟩ := hg f hf
  have hinner : ∀ a : Nat,
      ((List.range H).map (fun t => b2n (asgnVal g f a t) * costOf costs f a)).sum
        = b2n (decide ((g f).1 = a)) * costOf costs f a := by
    intro a
    have hpt : ∀ t, b2n (asgnVal g f a t) * costOf costs f a
        = b2n (decide ((g f).1 = a)) * (b2n (decide ((g f).2 = t)) * costOf costs f a) := by
      intro t
      unfold asgnVal
      rw [b2n_and]
      ring
    rw [List.map_congr_left (fun t _ => hpt t), sum_mul_left,
      sum_indicator_const (List.nodup_range H) ((g f).2) (costOf costs f a),
      if_pos (List.mem_range.mpr hgt)]
  rw [List.map_congr_left (fun a _ => hinner a),
    sum_indicator hnd ((g f).1) (costOf costs f), if_pos hga]

/-- Claim C10: the objective coefficient of an assignment variable depends only on the
flight and the aircraft, never on the start slot: the objective of any complete
assignment equals the sum over flights of `flight_costs[f - 1][a - 1]` for the
assigned aircraft, and two complete assignments mapping every flight to the same
aircraft have the same objective value regardless of their start slots. -/
theorem c10_objective_slot_independent (fIds aIds : List Nat) (H : Nat)
    (costs : List (List Nat)) (g g2 : Nat → Nat × Nat) (hnd : aIds.Nodup)
    (hg : ∀ f ∈ fIds, (g f).1 ∈ aIds ∧ (g f).2 < H)
    (hg2 : ∀ f ∈ fIds, (g2 f).1 ∈ aIds ∧ (g2 f).2 < H)
    (hsame : ∀ f ∈ fIds, (g2 f).1 = (g f).1) :
    objective fIds aIds H costs (asgnVal g)
        = (fIds.map (fun f => costOf costs f (g f).1)).sum ∧
    objective fIds aIds H costs (asgnVal g2) = objective fIds aIds H costs (asgnVal g) := by
  refine ⟨objective_asgnVal fIds aIds H costs g hnd hg, ?_⟩
  rw [objective_asgnVal fIds aIds H costs g hnd hg,
    objective_asgnVal fIds aIds H costs g2 hnd hg2]
  exact congrArg List.sum (List.map_congr_left (fun f hf => by rw [hsame f hf]))

/-- Complete assignment for the base script: flight f on aircraft f starting at slot f - 1. -/
def gBase : Nat → Nat × Nat := fun f => (f, f - 1)

/-- Complete assignment agreeing with `gBase` on aircraft but starting every flight at slot 0. -/
def gBase2 : Nat → Nat × Nat := fun f => (f, 0)

/-- Witness for C10: the data of the base script with two assignments that differ only in
start slots. -/
theorem c10_objective_slot_independent_witness :
    objective baseFlightIds aircraft_ids 7 baseFlightCosts (asgnVal gBase)
        = (baseFlightIds.map (fun f => costOf baseFlightCosts f (gBase f).1)).sum ∧
    objective baseFlightIds aircraft_ids 7 baseFlightCosts (asgnVal gBase2)
        = objective baseFlightIds aircraft_ids 7 baseFlightCosts (asgnVal gBase) :=
  c10_objective_slot_independent baseFlightIds aircraft_ids 7 baseFlightCosts gBase gBase2
    (by decide) (by decide) (by decide) (by decide)
